import Mathlib

/-!
Verification of the data-aggregation and signal engine of the Whale Watch
bot (`src/main.py`): the upstream fetch `try_get`, the snapshot aggregator
`fetch_dashboard_overview`, the sentiment lines built in `insight_cmd`, and
the alert evaluation in `check_and_send_alert`.

The embedding mirrors Python/JSON semantics: a `Json` value models any value
a parsed response body can take, `Json.null` doubles as Python `None` (the
two are the same object in Python, and `None` is the failure signal of
`try_get`), `pyTruthy` is Python truthiness, and fallible attribute access
(`.get` on a non-dict raises) is modelled with `Option`, where `none` means
an exception is raised.  Numbers are modelled as exact rationals; Python
`bool` is a subtype of `int`, so `asNum` also accepts booleans.
-/

namespace WhaleWatch

/-- A parsed JSON value / Python object, as handled by the bot.  `null` is
Python `None`. -/
inductive Json where
  | null
  | bool (b : Bool)
  | num (q : ℚ)
  | str (s : String)
  | arr (elems : List Json)
  | obj (fields : List (String × Json))

/-- Python truthiness of a value (`bool(x)`): `None`, `False`, `0`, `""`,
`[]`, `{}` are falsy, everything else truthy. -/
def pyTruthy : Json → Bool
  | Json.null => false
  | Json.bool b => b
  | Json.num q => q != 0
  | Json.str s => s != ""
  | Json.arr xs => !xs.isEmpty
  | Json.obj kvs => !kvs.isEmpty

/-- Whether the value is Python `None` (the `is None` test). -/
def Json.isNull : Json → Bool
  | Json.null => true
  | _ => false

/-- Whether the value is a Python dict (a parsed JSON object). -/
def Json.isObj : Json → Bool
  | Json.obj _ => true
  | _ => false

/-- Python numeric test `isinstance(x, (int, float))`: numbers qualify, and
so do booleans (`bool` is a subclass of `int`, `True == 1`, `False == 0`);
every other value is non-numeric. -/
def asNum : Json → Option ℚ
  | Json.num q => some q
  | Json.bool b => some (if b then 1 else 0)
  | _ => none

/-- Python `d.get(k, default)`.  Returns `none` when the receiver is not a
dict (Python raises `AttributeError`); otherwise `some` of the stored value,
or of `default` when the key is absent. -/
def pyGet (j : Json) (k : String) (d : Json) : Option Json :=
  match j with
  | Json.obj kvs => some (((kvs.find? (fun p => p.1 == k)).map Prod.snd).getD d)
  | _ => none

/-- Python iteration `for t in x`: lists yield their elements, dicts their
keys (as strings), strings their characters (as one-character strings); any
other value raises `TypeError` (`none`). -/
def pyIter : Json → Option (List Json)
  | Json.arr xs => some xs
  | Json.obj kvs => some (kvs.map (fun p => Json.str p.1))
  | Json.str s => some (s.data.map (fun c => Json.str (String.singleton c)))
  | _ => none

-- Field names and endpoint paths used by the bot.

def symbolKey : String := "symbol"
def priceUsdKey : String := "price_usd"
def priceChangeKey : String := "price_change_24h_pct"
def volumeKey : String := "volume_24h_usd"
def marketCapKey : String := "market_cap_usd"
def totalInflowKey : String := "total_inflow"
def totalOutflowKey : String := "total_outflow"
def netFlowKey : String := "net_flow"
def sentimentKey : String := "sentiment"
def ratioKey : String := "stablecoin_inflow_ratio_pct"
def stableNetKey : String := "stablecoin_net_flow"
def modeKey : String := "mode"
def tokenKey : String := "token"
def fromKey : String := "from"
def toKey : String := "to"
def amountKey : String := "amount"
def naText : String := "N/A"

def marketPath : String := "/api/market"
def flowsPath : String := "/api/exchange_flows"
def stablePath : String := "/api/stablecoin"
def whalesPath : String := "/api/whale_transfers"

def ethText : String := "ETH"
def bullishText : String := "Strong Accumulation (Bullish)"
def modeText : String := "Risk-Off -> Deploying"
def usdtText : String := "USDT"
def addrFrom1 : String := "0xc0ba...1a09"
def addrTo1 : String := "0x28c6...1d60"
def addrFrom2 : String := "0x17dc...403a"
def addrTo2 : String := "0xaa8b...3efb"

-- `SAMPLE_OVERVIEW`, the fallback sample data (src/main.py lines 34-42).

def sampleMarket : Json :=
  Json.obj [(symbolKey, Json.str ethText),
            (priceUsdKey, Json.num 3757.84),
            (priceChangeKey, Json.num (-13.22)),
            (volumeKey, Json.num 104010000000),
            (marketCapKey, Json.num 454450000000)]

def sampleFlows : Json :=
  Json.obj [(totalInflowKey, Json.num 530276600),
            (totalOutflowKey, Json.num 663261947),
            (netFlowKey, Json.num (-132985346)),
            (sentimentKey, Json.str bullishText)]

def sampleStable : Json :=
  Json.obj [(ratioKey, Json.num 100.0),
            (stableNetKey, Json.num (-20000000)),
            (modeKey, Json.str modeText)]

def sampleTransfer1 : Json :=
  Json.obj [(tokenKey, Json.str usdtText),
            (fromKey, Json.str addrFrom1),
            (toKey, Json.str addrTo1),
            (amountKey, Json.num 1851370.43)]

def sampleTransfer2 : Json :=
  Json.obj [(tokenKey, Json.str usdtText),
            (fromKey, Json.str addrFrom2),
            (toKey, Json.str addrTo2),
            (amountKey, Json.num 39365167.96)]

def sampleWhales : Json := Json.arr [sampleTransfer1, sampleTransfer2]

/-- The dashboard overview: the dict with the four fixed sections built by
`fetch_dashboard_overview` (the spec's Snapshot). -/
structure Overview where
  market : Json
  exchange_flows : Json
  stablecoin : Json
  whale_transfers : Json

/-- `SAMPLE_OVERVIEW` as an `Overview`. -/
def SAMPLE_OVERVIEW : Overview :=
  ⟨sampleMarket, sampleFlows, sampleStable, sampleWhales⟩

/-- Python `x or d`: `x` when truthy, else `d` (src/main.py lines 82-85). -/
def orFallback (x d : Json) : Json := if pyTruthy x then x else d

/-- `fetch_dashboard_overview` (src/main.py lines 63-86) as a function of
the four `try_get` results (each a `Json`, `null` meaning the call returned
`None`).  When `market`, `flows` and `stable` are truthy and `whales` is not
`None`, the live values are combined; otherwise each section independently
takes its live value if truthy, else the sample section. -/
def fetch_dashboard_overview (market flows stable whales : Json) : Overview :=
  if pyTruthy market && pyTruthy flows && pyTruthy stable && !whales.isNull then
    ⟨market, flows, stable, whales⟩
  else
    ⟨orFallback market sampleMarket,
     orFallback flows sampleFlows,
     orFallback stable sampleStable,
     orFallback whales sampleWhales⟩

/-- Outcome of an HTTP GET: `err` when the request itself raises (network
error, timeout, too many redirects); `resp status body` otherwise, where
`body` is the parse result of `resp.json()` (`none` when the body is not
valid JSON and the parse raises). -/
inductive HttpResult where
  | err
  | resp (status : Nat) (body : Option Json)

/-- Python `s.rstrip("/")`: drop trailing slash characters. -/
def rstripSlash (s : String) : String :=
  String.mk ((s.data.reverse.dropWhile (fun c => c == '/')).reverse)

/-- `try_get` (src/main.py lines 50-61) as a function of the configured base
URL and of the HTTP layer (`requests.get` composed with redirect handling).
Returns `Json.null` (Python `None`) when the base URL is unset or empty,
when the request raises, when `raise_for_status` raises (it raises exactly
for statuses 400-599), or when the body is not JSON; otherwise the parsed
body.  Total: no exception ever escapes (the body is wrapped in
`except Exception`). -/
def try_get (baseUrl : Option String) (http : String → HttpResult)
    (path : String) : Json :=
  match baseUrl with
  | none => Json.null
  | some u =>
    if u == "" then Json.null
    else
      match http (rstripSlash u ++ path) with
      | HttpResult.err => Json.null
      | HttpResult.resp status body =>
        if 400 ≤ status ∧ status < 600 then Json.null
        else
          match body with
          | none => Json.null
          | some j => j

-- Sentiment engine: the insight lines built in `insight_cmd`
-- (src/main.py lines 165-206).  Text formatting (`fmt_usd`, the emoji and
-- wording of each line, the timestamp rendering) is presentation and is
-- excluded from the model; each line is represented by its kind together
-- with the data interpolated into it.

/-- One line of the insight message, by kind. -/
inductive InsightLine where
  | header (price : Json)
  | flowsAccumulation
  | flowsDistribution
  | flowsNeutral
  | stableRiskOff
  | stableAccumulation
  | stableMixed
  | combinedStrongAccumulation
  | combinedDivergence
  | combinedBearish
  | timestamp

/-- Flow-direction line (src/main.py lines 179-185): only when `net_flow`
is numeric; negative → accumulation, positive → distribution, zero →
neutral. -/
def flowLine (netf : Json) : List InsightLine :=
  match asNum netf with
  | some q =>
    if q < 0 then [InsightLine.flowsAccumulation]
    else if q > 0 then [InsightLine.flowsDistribution]
    else [InsightLine.flowsNeutral]
  | none => []

/-- Stablecoin-posture line (src/main.py lines 188-194): only when the
inflow ratio is numeric; ratio ≥ 70 → risk-off, ratio ≤ 30 → accumulation,
otherwise mixed. -/
def stableLine (ratioJ : Json) : List InsightLine :=
  match asNum ratioJ with
  | some q =>
    if q ≥ 70 then [InsightLine.stableRiskOff]
    else if q ≤ 30 then [InsightLine.stableAccumulation]
    else [InsightLine.stableMixed]
  | none => []

/-- Combined-heuristic line (src/main.py lines 197-203): only when both
`net_flow` and `stablecoin_net_flow` are numeric; both negative → strong
accumulation, netf < 0 < stable → divergence, both positive → bearish;
every other sign combination emits nothing. -/
def combinedLine (netf stableNet : Json) : List InsightLine :=
  match asNum netf, asNum stableNet with
  | some nf, some st =>
    if nf < 0 ∧ st < 0 then [InsightLine.combinedStrongAccumulation]
    else if nf < 0 ∧ 0 < st then [InsightLine.combinedDivergence]
    else if nf > 0 ∧ st > 0 then [InsightLine.combinedBearish]
    else []
  | _, _ => []

/-- The insight message of `insight_cmd` (src/main.py lines 165-206) as the
ordered list of its lines.  `none` models an exception (a `.get` on a
section that is not a dict raises `AttributeError`).  The accesses are made
in source order: `net_flow`, the two stablecoin fields, then the header's
price. -/
def insight_cmd (ov : Overview) : Option (List InsightLine) := do
  let netf ← pyGet ov.exchange_flows netFlowKey Json.null
  let ratioJ ← pyGet ov.stablecoin ratioKey Json.null
  let stableNetJ ← pyGet ov.stablecoin stableNetKey Json.null
  let price ← pyGet ov.market priceUsdKey (Json.str naText)
  some ([InsightLine.header price] ++ flowLine netf ++ stableLine ratioJ
        ++ combinedLine netf stableNetJ ++ [InsightLine.timestamp])

-- Alert evaluator: `check_and_send_alert` (src/main.py lines 211-238).

/-- One alert, by kind, with the data interpolated into its text. -/
inductive Alert where
  | strongAccumulation (netf : ℚ)
  | strongDistribution (netf : ℚ)
  | whaleTransfer (amount : ℚ) (token source dest : Json)

def ACCUM_THRESHOLD : ℚ := -50000000
def DIST_THRESHOLD : ℚ := 50000000
def BIG_TX_THRESHOLD : ℚ := 10000000

/-- The two flow alerts (src/main.py lines 225-229): only when `net_flow`
is numeric; the two threshold checks are independent `if`s, in this
order. -/
def flowAlerts (netfJ : Json) : List Alert :=
  match asNum netfJ with
  | some q =>
    (if q ≤ ACCUM_THRESHOLD then [Alert.strongAccumulation q] else [])
    ++ (if q ≥ DIST_THRESHOLD then [Alert.strongDistribution q] else [])
  | none => []

/-- One iteration of the whale loop (src/main.py lines 231-234): the alerts
contributed by one element `t`.  `t.get("amount", 0)` raises on a non-dict
(`none`); when the amount is numeric and meets the threshold, the alert
text reads `token`, `from` and `to` from `t`. -/
def transferAlert (t : Json) : Option (List Alert) := do
  let amtJ ← pyGet t amountKey (Json.num 0)
  match asNum amtJ with
  | some a =>
    if a ≥ BIG_TX_THRESHOLD then do
      let tok ← pyGet t tokenKey Json.null
      let src ← pyGet t fromKey Json.null
      let dst ← pyGet t toKey Json.null
      some [Alert.whaleTransfer a tok src dst]
    else some []
  | none => some []

/-- The whale loop over the already-iterated elements, in order. -/
def transferAlerts : List Json → Option (List Alert)
  | [] => some []
  | t :: ts => do
    let hd ← transferAlert t
    let tl ← transferAlerts ts
    some (hd ++ tl)

/-- The alert list computed by `check_and_send_alert` from the overview's
`exchange_flows` and `whale_transfers` sections (src/main.py lines 215-234):
flow alerts first, then one alert per qualifying whale transfer in sequence
order.  `none` models an exception escaping the evaluation. -/
def evaluate_alerts (flows whales : Json) : Option (List Alert) := do
  let netfJ ← pyGet flows netFlowKey (Json.num 0)
  let ts ← pyIter whales
  let tx ← transferAlerts ts
  some (flowAlerts netfJ ++ tx)

-- The scheduled alert cycle with its observable actions.

/-- An observable action of the alert cycle: an upstream fetch issued by
`fetch_dashboard_overview`, or the dispatch of the alert message to the
operator channel. -/
inductive Action where
  | fetchCall (path : String)
  | sendMessage (chatId : String)

/-- The four upstream fetches of one aggregation, in source order. -/
def fetchActions : List Action :=
  [Action.fetchCall marketPath, Action.fetchCall flowsPath,
   Action.fetchCall stablePath, Action.fetchCall whalesPath]

/-- `check_and_send_alert` (src/main.py lines 211-238) as a function of the
configured `ADMIN_CHAT_ID` and of the `try_get` results (`tryGetRes` maps
each path to the value `try_get` returns for it).  Yields the list of
performed actions and the computed alert list (`none` when the body was not
evaluated, either by the early return or because evaluation raised).  When
`ADMIN_CHAT_ID` is unset or empty the function returns at once: no fetch,
no evaluation, no dispatch.  Otherwise it aggregates, evaluates, and sends
one message exactly when the alert list is non-empty. -/
def check_and_send_alert (adminChatId : Option String)
    (tryGetRes : String → Json) : List Action × Option (List Alert) :=
  match adminChatId with
  | none => ([], none)
  | some cid =>
    if cid == "" then ([], none)
    else
      let ov := fetch_dashboard_overview (tryGetRes marketPath)
        (tryGetRes flowsPath) (tryGetRes stablePath) (tryGetRes whalesPath)
      match evaluate_alerts ov.exchange_flows ov.whale_transfers with
      | none => (fetchActions, none)
      | some alerts =>
        (fetchActions
          ++ (if alerts.isEmpty then [] else [Action.sendMessage cid]),
         some alerts)

-- Auxiliary characterizations used by the alert theorems.

/-- `(pyGet t k d).getD d`: the value `t.get(k, d)` yields when `t` is a
dict (`d` otherwise; only ever used under a dict hypothesis). -/
def objGetD (t : Json) (k : String) (d : Json) : Json := (pyGet t k d).getD d

/-- The amount of a transfer when it is numeric and meets the
big-transaction threshold; `none` otherwise. -/
def qualifyingAmount (t : Json) : Option ℚ :=
  match asNum (objGetD t amountKey (Json.num 0)) with
  | some a => if a ≥ BIG_TX_THRESHOLD then some a else none
  | none => none

/-- The alert emitted for a qualifying transfer. -/
def mkWhaleAlert (t : Json) (a : ℚ) : Alert :=
  Alert.whaleTransfer a (objGetD t tokenKey Json.null)
    (objGetD t fromKey Json.null) (objGetD t toKey Json.null)

/-- One big-transfer alert per qualifying transfer, in sequence order. -/
def bigAlerts (ts : List Json) : List Alert :=
  ts.filterMap (fun t => (qualifyingAmount t).map (mkWhaleAlert t))

-- General lemmas.

theorem isObj_exists {j : Json} (h : j.isObj = true) :
    ∃ kvs, j = Json.obj kvs := by
  cases j <;> simp [Json.isObj] at h ⊢

theorem pyGet_isSome {j : Json} (h : j.isObj = true) (k : String) (d : Json) :
    ∃ v, pyGet j k d = some v := by
  obtain ⟨kvs, rfl⟩ := isObj_exists h
  exact ⟨_, rfl⟩

theorem objGetD_eq {t : Json} {k : String} {d v : Json}
    (h : pyGet t k d = some v) : objGetD t k d = v := by
  simp [objGetD, h]

theorem flowLine_none {n : Json} (h : asNum n = none) : flowLine n = [] := by
  simp [flowLine, h]

theorem stableLine_none {r : Json} (h : asNum r = none) : stableLine r = [] := by
  simp [stableLine, h]

theorem combinedLine_none_left {n sn : Json} (h : asNum n = none) :
    combinedLine n sn = [] := by
  simp [combinedLine, h]

theorem combinedLine_none_right {n sn : Json} (h : asNum sn = none) :
    combinedLine n sn = [] := by
  unfold combinedLine
  rcases hn : asNum n with _ | a <;> simp only [hn, h]

theorem mem_flowLine {x : InsightLine} {n : Json} (h : x ∈ flowLine n) :
    x = InsightLine.flowsAccumulation ∨ x = InsightLine.flowsDistribution
      ∨ x = InsightLine.flowsNeutral := by
  unfold flowLine at h
  rcases hn : asNum n with _ | q <;> simp only [hn] at h
  · simp at h
  · split_ifs at h <;> simp at h <;> simp [h]

theorem mem_stableLine {x : InsightLine} {r : Json} (h : x ∈ stableLine r) :
    x = InsightLine.stableRiskOff ∨ x = InsightLine.stableAccumulation
      ∨ x = InsightLine.stableMixed := by
  unfold stableLine at h
  rcases hr : asNum r with _ | q <;> simp only [hr] at h
  · simp at h
  · split_ifs at h <;> simp at h <;> simp [h]

theorem mem_combinedLine {x : InsightLine} {n sn : Json}
    (h : x ∈ combinedLine n sn) :
    x = InsightLine.combinedStrongAccumulation
      ∨ x = InsightLine.combinedDivergence
      ∨ x = InsightLine.combinedBearish := by
  unfold combinedLine at h
  rcases hn : asNum n with _ | a <;> simp only [hn] at h
  · simp at h
  · rcases hs : asNum sn with _ | b <;> simp only [hs] at h
    · simp at h
    · split_ifs at h <;> simp at h <;> simp [h]

/-- Computation of `insight_cmd` once the four accesses succeed. -/
theorem insight_cmd_eq {ov : Overview} {netf r sn price : Json}
    (h1 : pyGet ov.exchange_flows netFlowKey Json.null = some netf)
    (h2 : pyGet ov.stablecoin ratioKey Json.null = some r)
    (h3 : pyGet ov.stablecoin stableNetKey Json.null = some sn)
    (h4 : pyGet ov.market priceUsdKey (Json.str naText) = some price) :
    insight_cmd ov
      = some ([InsightLine.header price] ++ flowLine netf ++ stableLine r
          ++ combinedLine netf sn ++ [InsightLine.timestamp]) := by
  simp [insight_cmd, h1, h2, h3, h4, Option.bind]

/-- Computation of `transferAlert` on a dict element. -/
theorem transferAlert_obj {t : Json} (h : t.isObj = true) :
    transferAlert t
      = some (((qualifyingAmount t).map (mkWhaleAlert t)).toList) := by
  obtain ⟨amtJ, hamt⟩ := pyGet_isSome h amountKey (Json.num 0)
  obtain ⟨tok, htok⟩ := pyGet_isSome h tokenKey Json.null
  obtain ⟨src, hsrc⟩ := pyGet_isSome h fromKey Json.null
  obtain ⟨dst, hdst⟩ := pyGet_isSome h toKey Json.null
  unfold transferAlert qualifyingAmount mkWhaleAlert
  rw [objGetD_eq hamt, objGetD_eq htok, objGetD_eq hsrc, objGetD_eq hdst]
  simp only [hamt, Option.some_bind]
  rcases hn : asNum amtJ with _ | a
  · simp [hn]
  · by_cases hth : BIG_TX_THRESHOLD ≤ a
    · simp [hn, hth, htok, hsrc, hdst, Option.bind]
    · simp [hn, hth]

/-- The whale loop yields exactly one alert per qualifying transfer, in
sequence order, once every iterated element is a dict. -/
theorem transferAlerts_eq : ∀ {ts : List Json},
    (∀ t ∈ ts, t.isObj = true) → transferAlerts ts = some (bigAlerts ts)
  | [], _ => by simp [transferAlerts, bigAlerts]
  | t :: ts, h => by
    have ht := transferAlert_obj (h t (List.mem_cons_self t ts))
    have ih := transferAlerts_eq (fun u hu => h u (List.mem_cons_of_mem t hu))
    simp [transferAlerts, ht, ih, bigAlerts, List.filterMap_cons, Option.bind]
    cases qualifyingAmount t <;> simp

/-- Computation of `evaluate_alerts` when nothing raises. -/
theorem evaluate_alerts_eq {flows whales : Json} {ts : List Json}
    {netfJ : Json}
    (h1 : pyGet flows netFlowKey (Json.num 0) = some netfJ)
    (h2 : pyIter whales = some ts)
    (h3 : ∀ t ∈ ts, t.isObj = true) :
    evaluate_alerts flows whales = some (flowAlerts netfJ ++ bigAlerts ts) := by
  simp [evaluate_alerts, h1, h2, transferAlerts_eq h3, Option.bind]

theorem mem_flowAlerts_accum {x : ℚ} {netfJ : Json} :
    Alert.strongAccumulation x ∈ flowAlerts netfJ
      ↔ asNum netfJ = some x ∧ x ≤ ACCUM_THRESHOLD := by
  unfold flowAlerts
  rcases hn : asNum netfJ with _ | q <;> simp only [hn]
  · simp
  · constructor
    · intro hmem
      rcases List.mem_append.mp hmem with hL | hR
      · by_cases h1 : q ≤ ACCUM_THRESHOLD
        · rw [if_pos h1] at hL
          have hx : x = q := by simpa using hL
          exact ⟨by rw [hx], hx ▸ h1⟩
        · rw [if_neg h1] at hL
          simp at hL
      · by_cases h2 : DIST_THRESHOLD ≤ q
        · rw [if_pos h2] at hR
          simp at hR
        · rw [if_neg h2] at hR
          simp at hR
    · rintro ⟨hq, hle⟩
      have hqx : q = x := Option.some.inj hq
      subst hqx
      exact List.mem_append.mpr (Or.inl (by rw [if_pos hle]; simp))

theorem mem_flowAlerts_dist {x : ℚ} {netfJ : Json} :
    Alert.strongDistribution x ∈ flowAlerts netfJ
      ↔ asNum netfJ = some x ∧ x ≥ DIST_THRESHOLD := by
  unfold flowAlerts
  rcases hn : asNum netfJ with _ | q <;> simp only [hn]
  · simp
  · constructor
    · intro hmem
      rcases List.mem_append.mp hmem with hL | hR
      · by_cases h1 : q ≤ ACCUM_THRESHOLD
        · rw [if_pos h1] at hL
          simp at hL
        · rw [if_neg h1] at hL
          simp at hL
      · by_cases h2 : DIST_THRESHOLD ≤ q
        · rw [if_pos h2] at hR
          have hx : x = q := by simpa using hR
          exact ⟨by rw [hx], hx ▸ h2⟩
        · rw [if_neg h2] at hR
          simp at hR
    · rintro ⟨hq, hge⟩
      have hqx : q = x := Option.some.inj hq
      subst hqx
      exact List.mem_append.mpr (Or.inr (by rw [if_pos hge]; simp))

theorem mem_bigAlerts {x : Alert} {ts : List Json} (h : x ∈ bigAlerts ts) :
    ∃ t ∈ ts, ∃ a, qualifyingAmount t = some a ∧ x = mkWhaleAlert t a := by
  simp only [bigAlerts, List.mem_filterMap, Option.map_eq_some'] at h
  obtain ⟨t, ht, a, ha, rfl⟩ := h
  exact ⟨t, ht, a, ha, rfl⟩

theorem mkWhaleAlert_mem_bigAlerts {t : Json} {ts : List Json} {a : ℚ}
    (ht : t ∈ ts) (ha : qualifyingAmount t = some a) :
    mkWhaleAlert t a ∈ bigAlerts ts := by
  simp only [bigAlerts, List.mem_filterMap]
  exact ⟨t, ht, by simp [ha]⟩

theorem qualifyingAmount_ge {t : Json} {a : ℚ}
    (h : qualifyingAmount t = some a) : a ≥ BIG_TX_THRESHOLD := by
  unfold qualifyingAmount at h
  rcases hn : asNum (objGetD t amountKey (Json.num 0)) with _ | q <;>
    simp only [hn] at h
  · cases h
  · by_cases hth : BIG_TX_THRESHOLD ≤ q
    · rw [if_pos hth] at h
      injection h with h'
      exact h' ▸ hth
    · rw [if_neg hth] at h
      exact absurd h (by simp)

theorem pyTruthy_null : pyTruthy Json.null = false := rfl

theorem isNull_null : Json.isNull Json.null = true := rfl

theorem orFallback_of_truthy {x : Json} (d : Json) (h : pyTruthy x = true) :
    orFallback x d = x := by
  simp [orFallback, h]

-- Claim theorems.

/-- Claim C1 (code bug in `fetch_dashboard_overview`): the spec requires a
whale-transfers call that succeeds with an empty list to stay live
regardless of the other calls, but the fallback branch tests the list with
truthiness (`whales or SAMPLE_OVERVIEW[...]`), so as soon as any other call
fails the empty live list is replaced by the sample transfers.  First
conjunct: with the market call failed and flows/stable truthy, a live empty
whale list becomes `sampleWhales`.  Second conjunct: that really changed the
value.  Third conjunct: in the all-success branch (`whales is not None`) the
same empty list is kept, showing the intent the fallback branch slips on. -/
theorem empty_whale_list_fallback_on_partial_failure :
    (fetch_dashboard_overview Json.null sampleFlows sampleStable
        (Json.arr [])).whale_transfers = sampleWhales
    ∧ sampleWhales ≠ Json.arr []
    ∧ (fetch_dashboard_overview sampleMarket sampleFlows sampleStable
        (Json.arr [])).whale_transfers = Json.arr [] := by
  refine ⟨?_, ?_, ?_⟩
  · simp [fetch_dashboard_overview, pyTruthy, orFallback, Json.isNull,
      sampleFlows, sampleStable]
  · simp [sampleWhales]
  · simp [fetch_dashboard_overview, pyTruthy, orFallback, Json.isNull,
      sampleMarket, sampleFlows, sampleStable]

/-- Claim C2 counterexample: with exactly one failed call (market returns
`None`) and the flows call succeeded with the empty JSON object, the flows
section is NOT the live value, refuting "the other three sections are the
live values, unchanged"; the second conjunct records that the flows call
did not fail. -/
theorem single_failure_not_only_fallback :
    (fetch_dashboard_overview Json.null (Json.obj []) sampleStable
        sampleWhales).exchange_flows ≠ Json.obj []
    ∧ (Json.obj [] : Json) ≠ Json.null := by
  constructor
  · simp [fetch_dashboard_overview, pyTruthy, orFallback, Json.isNull,
      sampleStable, sampleWhales, sampleFlows, sampleTransfer1,
      sampleTransfer2]
  · simp

/-- Claim C2 (amended): a section whose call succeeds with truthy
(non-empty) data is carried into the overview exactly as returned, and when
exactly one call fails while the other three succeed with truthy data,
exactly the failed section takes the sample value and the other three are
the live values, unchanged. -/
theorem sections_independent_fallback (m f s w : Json) :
    (pyTruthy m = true → (fetch_dashboard_overview m f s w).market = m)
    ∧ (pyTruthy f = true → (fetch_dashboard_overview m f s w).exchange_flows = f)
    ∧ (pyTruthy s = true → (fetch_dashboard_overview m f s w).stablecoin = s)
    ∧ (pyTruthy w = true → (fetch_dashboard_overview m f s w).whale_transfers = w)
    ∧ (m = Json.null → pyTruthy f = true → pyTruthy s = true →
        pyTruthy w = true →
        fetch_dashboard_overview m f s w = ⟨sampleMarket, f, s, w⟩)
    ∧ (f = Json.null → pyTruthy m = true → pyTruthy s = true →
        pyTruthy w = true →
        fetch_dashboard_overview m f s w = ⟨m, sampleFlows, s, w⟩)
    ∧ (s = Json.null → pyTruthy m = true → pyTruthy f = true →
        pyTruthy w = true →
        fetch_dashboard_overview m f s w = ⟨m, f, sampleStable, w⟩)
    ∧ (w = Json.null → pyTruthy m = true → pyTruthy f = true →
        pyTruthy s = true →
        fetch_dashboard_overview m f s w = ⟨m, f, s, sampleWhales⟩) := by
  refine ⟨?_, ?_, ?_, ?_, ?_, ?_, ?_, ?_⟩
  · intro hm
    unfold fetch_dashboard_overview
    split
    · rfl
    · exact orFallback_of_truthy _ hm
  · intro hf
    unfold fetch_dashboard_overview
    split
    · rfl
    · exact orFallback_of_truthy _ hf
  · intro hs
    unfold fetch_dashboard_overview
    split
    · rfl
    · exact orFallback_of_truthy _ hs
  · intro hw
    unfold fetch_dashboard_overview
    split
    · rfl
    · exact orFallback_of_truthy _ hw
  · rintro rfl hf hs hw
    simp [fetch_dashboard_overview, pyTruthy_null, orFallback, hf, hs, hw]
  · rintro rfl hm hs hw
    simp [fetch_dashboard_overview, pyTruthy_null, orFallback, hm, hs, hw]
  · rintro rfl hm hf hw
    simp [fetch_dashboard_overview, pyTruthy_null, orFallback, hm, hf, hw]
  · rintro rfl hm hf hs
    simp [fetch_dashboard_overview, pyTruthy_null, isNull_null, orFallback,
      hm, hf, hs]

/-- Witness for C2's amended theorem: the market call fails, the other
three succeed with the (truthy) sample values, and exactly the market
section falls back. -/
theorem sections_independent_fallback_witness :
    fetch_dashboard_overview Json.null sampleFlows sampleStable sampleWhales
      = ⟨sampleMarket, sampleFlows, sampleStable, sampleWhales⟩ :=
  (sections_independent_fallback Json.null sampleFlows sampleStable
    sampleWhales).2.2.2.2.1 rfl rfl rfl rfl

/-- Claim C9: when all four calls fail (`None` four times) the overview
equals `SAMPLE_OVERVIEW` in all four sections, and the alert evaluation on
that overview yields exactly two alerts: the accumulation-flow alert for
net flow −132,985,346 and the big-transfer alert for the 39,365,167.96
transfer (none for the 1,851,370.43 transfer). -/
theorem total_failure_end_to_end :
    fetch_dashboard_overview Json.null Json.null Json.null Json.null
      = SAMPLE_OVERVIEW
    ∧ evaluate_alerts SAMPLE_OVERVIEW.exchange_flows
        SAMPLE_OVERVIEW.whale_transfers
      = some [Alert.strongAccumulation (-132985346),
              Alert.whaleTransfer 39365167.96 (Json.str usdtText)
                (Json.str addrFrom2) (Json.str addrTo2)] := by
  constructor
  · rfl
  · have h1 : transferAlert sampleTransfer1 = some [] := by
      simp [transferAlert, pyGet, sampleTransfer1, List.find?, amountKey,
        tokenKey, fromKey, toKey, asNum, BIG_TX_THRESHOLD, Option.bind]
      norm_num
    have h2 : transferAlert sampleTransfer2
        = some [Alert.whaleTransfer 39365167.96 (Json.str usdtText)
            (Json.str addrFrom2) (Json.str addrTo2)] := by
      simp [transferAlert, pyGet, sampleTransfer2, List.find?, amountKey,
        tokenKey, fromKey, toKey, asNum, BIG_TX_THRESHOLD, Option.bind]
      norm_num
    have h3 : flowAlerts (Json.num (-132985346))
        = [Alert.strongAccumulation (-132985346)] := by
      simp [flowAlerts, asNum, ACCUM_THRESHOLD, DIST_THRESHOLD]
      norm_num
    simp [evaluate_alerts, SAMPLE_OVERVIEW, sampleWhales, pyIter,
      transferAlerts, h1, h2, h3, Option.bind, pyGet, sampleFlows,
      List.find?, netFlowKey, totalInflowKey, totalOutflowKey, sentimentKey]

/-- Claim C10: when `ADMIN_CHAT_ID` is unset (or empty, which Python's
`not` also treats as missing), `check_and_send_alert` returns at once:
no upstream fetch is issued, no alert is evaluated, and no message is
dispatched — for every state of the upstream world. -/
theorem admin_unset_no_cycle (env : String → Json) :
    check_and_send_alert none env = ([], none)
    ∧ check_and_send_alert (some ("")) env = ([], none) := by
  exact ⟨rfl, rfl⟩

def apiBaseText : String := "http://api.example"

/-- Claim C8 counterexample: `raise_for_status` raises only for statuses
400-599, so a non-2xx status outside that range (here 300) with a JSON body
makes `try_get` return the parsed body, not the failure signal `None` —
refuting "the response is non-2xx → it returns the failure signal". -/
theorem try_get_non2xx_counterexample :
    try_get (some apiBaseText)
        (fun _ => HttpResult.resp 300 (some sampleMarket)) marketPath
      = sampleMarket
    ∧ sampleMarket ≠ Json.null := by
  constructor
  · simp [try_get, apiBaseText]
  · simp [sampleMarket]

/-- Claim C8 (amended): `try_get` never raises (it is a total function into
`Json`), and it returns the failure signal `None` exactly on: unset or
empty base URL, a request error, a status in 400-599 (the statuses
`raise_for_status` raises for), or a non-JSON body; for any other status it
returns the parsed JSON body. -/
theorem try_get_failure_characterization (http : String → HttpResult)
    (path : String) :
    try_get none http path = Json.null
    ∧ try_get (some ("")) http path = Json.null
    ∧ (∀ u, u ≠ "" →
        (http (rstripSlash u ++ path) = HttpResult.err →
          try_get (some u) http path = Json.null)
        ∧ (∀ st body, http (rstripSlash u ++ path) = HttpResult.resp st body →
            (400 ≤ st → st < 600 → try_get (some u) http path = Json.null)
            ∧ (body = none → try_get (some u) http path = Json.null)
            ∧ (∀ j, ¬(400 ≤ st ∧ st < 600) → body = some j →
                try_get (some u) http path = j))) := by
  refine ⟨rfl, rfl, ?_⟩
  intro u hu
  have hbeq : (u == "") = false := by
    simp [hu]
  constructor
  · intro herr
    simp [try_get, hbeq, herr]
  · intro st body hresp
    refine ⟨?_, ?_, ?_⟩
    · intro h4 h6
      simp [try_get, hbeq, hresp, h4, h6]
    · rintro rfl
      simp [try_get, hbeq, hresp]
    · intro j hst hbody
      subst hbody
      simp [try_get, hbeq, hresp, hst]

/-- Witness for C8's amended theorem: a 404 with a JSON body still yields
`None`, and a 200 with a JSON body yields the body. -/
theorem try_get_failure_characterization_witness :
    try_get (some apiBaseText)
        (fun _ => HttpResult.resp 404 (some (Json.num 1))) marketPath
      = Json.null
    ∧ try_get (some apiBaseText)
        (fun _ => HttpResult.resp 200 (some (Json.num 1))) marketPath
      = Json.num 1 := by
  constructor
  · exact ((((try_get_failure_characterization
      (fun _ => HttpResult.resp 404 (some (Json.num 1))) marketPath).2.2
        apiBaseText (by simp [apiBaseText])).2 404 (some (Json.num 1))
          rfl).1 (by norm_num) (by norm_num))
  · exact ((((try_get_failure_characterization
      (fun _ => HttpResult.resp 200 (some (Json.num 1))) marketPath).2.2
        apiBaseText (by simp [apiBaseText])).2 200 (some (Json.num 1))
          rfl).2.2 (Json.num 1) (by norm_num) rfl)

theorem stableLine_some {r : Json} {q : ℚ} (h : asNum r = some q) :
    stableLine r
      = if q ≥ 70 then [InsightLine.stableRiskOff]
        else if q ≤ 30 then [InsightLine.stableAccumulation]
        else [InsightLine.stableMixed] := by
  simp [stableLine, h]

theorem combinedLine_some {n sn : Json} {a b : ℚ}
    (ha : asNum n = some a) (hb : asNum sn = some b) :
    combinedLine n sn
      = if a < 0 ∧ b < 0 then [InsightLine.combinedStrongAccumulation]
        else if a < 0 ∧ 0 < b then [InsightLine.combinedDivergence]
        else if a > 0 ∧ b > 0 then [InsightLine.combinedBearish]
        else [] := by
  simp [combinedLine, ha, hb]

/-- Claim C3: the insight derivation is deterministic (a pure function of
the overview) and total on well-typed overviews (the three accessed
sections are dicts): it then returns a line list rather than raising, and
an absent or non-numeric numeric field silently omits the corresponding
lines instead of erroring. -/
theorem insight_deterministic_and_total (ov : Overview) :
    (∀ ov2 : Overview, ov = ov2 → insight_cmd ov = insight_cmd ov2)
    ∧ (ov.market.isObj = true → ov.exchange_flows.isObj = true →
       ov.stablecoin.isObj = true →
       ∃ ls, insight_cmd ov = some ls
         ∧ (∀ netf, pyGet ov.exchange_flows netFlowKey Json.null = some netf →
             asNum netf = none →
             ¬ InsightLine.flowsAccumulation ∈ ls
             ∧ ¬ InsightLine.flowsDistribution ∈ ls
             ∧ ¬ InsightLine.flowsNeutral ∈ ls)
         ∧ (∀ r, pyGet ov.stablecoin ratioKey Json.null = some r →
             asNum r = none →
             ¬ InsightLine.stableRiskOff ∈ ls
             ∧ ¬ InsightLine.stableAccumulation ∈ ls
             ∧ ¬ InsightLine.stableMixed ∈ ls)
         ∧ (∀ sn, pyGet ov.stablecoin stableNetKey Json.null = some sn →
             asNum sn = none →
             ¬ InsightLine.combinedStrongAccumulation ∈ ls
             ∧ ¬ InsightLine.combinedDivergence ∈ ls
             ∧ ¬ InsightLine.combinedBearish ∈ ls)) := by
  constructor
  · intro ov2 he
    rw [he]
  · intro hm hf hs
    obtain ⟨netf, h1⟩ := pyGet_isSome hf netFlowKey Json.null
    obtain ⟨r, h2⟩ := pyGet_isSome hs ratioKey Json.null
    obtain ⟨sn, h3⟩ := pyGet_isSome hs stableNetKey Json.null
    obtain ⟨price, h4⟩ := pyGet_isSome hm priceUsdKey (Json.str naText)
    refine ⟨_, insight_cmd_eq h1 h2 h3 h4, ?_, ?_, ?_⟩
    · intro netf' hnf' hnone
      rw [h1] at hnf'
      injection hnf' with he
      subst he
      refine ⟨?_, ?_, ?_⟩ <;>
        · simp only [flowLine_none hnone, combinedLine_none_left hnone,
            List.mem_append, List.mem_singleton]
          intro hmem
          simp at hmem
          rcases mem_stableLine hmem with h | h | h <;> simp at h
    · intro r' hr' hnone
      rw [h2] at hr'
      injection hr' with he
      subst he
      refine ⟨?_, ?_, ?_⟩ <;>
        · simp only [stableLine_none hnone, List.mem_append,
            List.mem_singleton]
          intro hmem
          simp at hmem
          rcases hmem with h | h
          · rcases mem_flowLine h with h' | h' | h' <;> simp at h'
          · rcases mem_combinedLine h with h' | h' | h' <;> simp at h'
    · intro sn' hsn' hnone
      rw [h3] at hsn'
      injection hsn' with he
      subst he
      refine ⟨?_, ?_, ?_⟩ <;>
        · simp only [combinedLine_none_right hnone, List.mem_append,
            List.mem_singleton]
          intro hmem
          simp at hmem
          rcases hmem with h | h
          · rcases mem_flowLine h with h' | h' | h' <;> simp at h'
          · rcases mem_stableLine h with h' | h' | h' <;> simp at h'

/-- Witness for C3: a well-typed overview with every numeric field absent
produces a line list (no exception) omitting the flow line. -/
theorem insight_deterministic_and_total_witness :
    ∃ ls, insight_cmd ⟨Json.obj [], Json.obj [], Json.obj [], Json.arr []⟩
        = some ls
      ∧ ¬ InsightLine.flowsAccumulation ∈ ls := by
  obtain ⟨ls, hls, hflow, _, _⟩ :=
    (insight_deterministic_and_total
      ⟨Json.obj [], Json.obj [], Json.obj [], Json.arr []⟩).2 rfl rfl rfl
  exact ⟨ls, hls, (hflow Json.null rfl rfl).1⟩

/-- Claim C4: for a well-typed overview whose stablecoin inflow-ratio
percentage is numeric, the stablecoin-posture line classifies ratio ≥ 70
as risk-off, ratio ≤ 30 as accumulation and 30 < ratio < 70 as mixed, with
both boundaries belonging to their named buckets. -/
theorem stable_posture_buckets (ov : Overview) (r : Json) (q : ℚ)
    (hm : ov.market.isObj = true) (hf : ov.exchange_flows.isObj = true)
    (hs : ov.stablecoin.isObj = true)
    (hr : pyGet ov.stablecoin ratioKey Json.null = some r)
    (hq : asNum r = some q) :
    ∃ ls, insight_cmd ov = some ls
      ∧ (70 ≤ q → InsightLine.stableRiskOff ∈ ls
          ∧ ¬ InsightLine.stableAccumulation ∈ ls
          ∧ ¬ InsightLine.stableMixed ∈ ls)
      ∧ (q ≤ 30 → InsightLine.stableAccumulation ∈ ls
          ∧ ¬ InsightLine.stableRiskOff ∈ ls
          ∧ ¬ InsightLine.stableMixed ∈ ls)
      ∧ (30 < q → q < 70 → InsightLine.stableMixed ∈ ls
          ∧ ¬ InsightLine.stableRiskOff ∈ ls
          ∧ ¬ InsightLine.stableAccumulation ∈ ls) := by
  obtain ⟨netf, h1⟩ := pyGet_isSome hf netFlowKey Json.null
  obtain ⟨sn, h3⟩ := pyGet_isSome hs stableNetKey Json.null
  obtain ⟨price, h4⟩ := pyGet_isSome hm priceUsdKey (Json.str naText)
  refine ⟨_, insight_cmd_eq h1 hr h3 h4, ?_, ?_, ?_⟩
  · intro h70
    have hline : stableLine r = [InsightLine.stableRiskOff] := by
      rw [stableLine_some hq, if_pos h70]
    refine ⟨by simp [hline], ?_, ?_⟩ <;>
      · simp only [hline, List.mem_append, List.mem_singleton]
        intro hmem
        simp at hmem
        rcases hmem with h | h
        · rcases mem_flowLine h with h' | h' | h' <;> simp at h'
        · rcases mem_combinedLine h with h' | h' | h' <;> simp at h'
  · intro h30
    have h70 : ¬ (70 : ℚ) ≤ q := by linarith
    have hline : stableLine r = [InsightLine.stableAccumulation] := by
      rw [stableLine_some hq, if_neg h70, if_pos h30]
    refine ⟨by simp [hline], ?_, ?_⟩ <;>
      · simp only [hline, List.mem_append, List.mem_singleton]
        intro hmem
        simp at hmem
        rcases hmem with h | h
        · rcases mem_flowLine h with h' | h' | h' <;> simp at h'
        · rcases mem_combinedLine h with h' | h' | h' <;> simp at h'
  · intro h30 h70
    have h70' : ¬ (70 : ℚ) ≤ q := by linarith
    have h30' : ¬ q ≤ (30 : ℚ) := by linarith
    have hline : stableLine r = [InsightLine.stableMixed] := by
      rw [stableLine_some hq, if_neg h70', if_neg h30']
    refine ⟨by simp [hline], ?_, ?_⟩ <;>
      · simp only [hline, List.mem_append, List.mem_singleton]
        intro hmem
        simp at hmem
        rcases hmem with h | h
        · rcases mem_flowLine h with h' | h' | h' <;> simp at h'
        · rcases mem_combinedLine h with h' | h' | h' <;> simp at h'

/-- Witness for C4: ratio exactly 70 lands in the risk-off bucket and
ratio exactly 30 in the accumulation bucket. -/
theorem stable_posture_buckets_witness :
    (∃ ls, insight_cmd ⟨Json.obj [], Json.obj [],
        Json.obj [(ratioKey, Json.num 70)], Json.arr []⟩ = some ls
      ∧ InsightLine.stableRiskOff ∈ ls)
    ∧ (∃ ls, insight_cmd ⟨Json.obj [], Json.obj [],
        Json.obj [(ratioKey, Json.num 30)], Json.arr []⟩ = some ls
      ∧ InsightLine.stableAccumulation ∈ ls) := by
  constructor
  · obtain ⟨ls, hls, hbkt, _, _⟩ := stable_posture_buckets
      ⟨Json.obj [], Json.obj [], Json.obj [(ratioKey, Json.num 70)],
        Json.arr []⟩ (Json.num 70) 70 rfl rfl rfl rfl rfl
    exact ⟨ls, hls, (hbkt (by norm_num)).1⟩
  · obtain ⟨ls, hls, _, hbkt, _⟩ := stable_posture_buckets
      ⟨Json.obj [], Json.obj [], Json.obj [(ratioKey, Json.num 30)],
        Json.arr []⟩ (Json.num 30) 30 rfl rfl rfl rfl rfl
    exact ⟨ls, hls, (hbkt (by norm_num)).1⟩

/-- Claim C5: for a well-typed overview in which both net exchange flow and
stablecoin net flow are numeric, the combined-heuristic line appears exactly
for the three classified sign combinations — both negative (strong
accumulation), flow < 0 < stable (divergence warning), both positive
(bearish) — and for every other sign combination no combined line is
emitted. -/
theorem combined_heuristic_cases (ov : Overview) (netf sn : Json)
    (qn qs : ℚ)
    (hm : ov.market.isObj = true) (_hf : ov.exchange_flows.isObj = true)
    (hs : ov.stablecoin.isObj = true)
    (hnf : pyGet ov.exchange_flows netFlowKey Json.null = some netf)
    (hqn : asNum netf = some qn)
    (hsn : pyGet ov.stablecoin stableNetKey Json.null = some sn)
    (hqs : asNum sn = some qs) :
    ∃ ls, insight_cmd ov = some ls
      ∧ (qn < 0 → qs < 0 →
          InsightLine.combinedStrongAccumulation ∈ ls
          ∧ ¬ InsightLine.combinedDivergence ∈ ls
          ∧ ¬ InsightLine.combinedBearish ∈ ls)
      ∧ (qn < 0 → 0 < qs →
          InsightLine.combinedDivergence ∈ ls
          ∧ ¬ InsightLine.combinedStrongAccumulation ∈ ls
          ∧ ¬ InsightLine.combinedBearish ∈ ls)
      ∧ (0 < qn → 0 < qs →
          InsightLine.combinedBearish ∈ ls
          ∧ ¬ InsightLine.combinedStrongAccumulation ∈ ls
          ∧ ¬ InsightLine.combinedDivergence ∈ ls)
      ∧ (¬(qn < 0 ∧ qs < 0) → ¬(qn < 0 ∧ 0 < qs) → ¬(0 < qn ∧ 0 < qs) →
          ¬ InsightLine.combinedStrongAccumulation ∈ ls
          ∧ ¬ InsightLine.combinedDivergence ∈ ls
          ∧ ¬ InsightLine.combinedBearish ∈ ls) := by
  obtain ⟨r, h2⟩ := pyGet_isSome hs ratioKey Json.null
  obtain ⟨price, h4⟩ := pyGet_isSome hm priceUsdKey (Json.str naText)
  refine ⟨_, insight_cmd_eq hnf h2 hsn h4, ?_, ?_, ?_, ?_⟩
  · intro hn hsneg
    have hline : combinedLine netf sn
        = [InsightLine.combinedStrongAccumulation] := by
      rw [combinedLine_some hqn hqs, if_pos ⟨hn, hsneg⟩]
    refine ⟨by simp [hline], ?_, ?_⟩ <;>
      · simp only [hline, List.mem_append, List.mem_singleton]
        intro hmem
        simp at hmem
        rcases hmem with h | h
        · rcases mem_flowLine h with h' | h' | h' <;> simp at h'
        · rcases mem_stableLine h with h' | h' | h' <;> simp at h'
  · intro hn hspos
    have hc1 : ¬(qn < 0 ∧ qs < 0) := by
      rintro ⟨_, h⟩
      linarith
    have hline : combinedLine netf sn = [InsightLine.combinedDivergence] := by
      rw [combinedLine_some hqn hqs, if_neg hc1, if_pos ⟨hn, hspos⟩]
    refine ⟨by simp [hline], ?_, ?_⟩ <;>
      · simp only [hline, List.mem_append, List.mem_singleton]
        intro hmem
        simp at hmem
        rcases hmem with h | h
        · rcases mem_flowLine h with h' | h' | h' <;> simp at h'
        · rcases mem_stableLine h with h' | h' | h' <;> simp at h'
  · intro hnpos hspos
    have hc1 : ¬(qn < 0 ∧ qs < 0) := by
      rintro ⟨h, _⟩
      linarith
    have hc2 : ¬(qn < 0 ∧ 0 < qs) := by
      rintro ⟨h, _⟩
      linarith
    have hline : combinedLine netf sn = [InsightLine.combinedBearish] := by
      rw [combinedLine_some hqn hqs, if_neg hc1, if_neg hc2,
        if_pos ⟨hnpos, hspos⟩]
    refine ⟨by simp [hline], ?_, ?_⟩ <;>
      · simp only [hline, List.mem_append, List.mem_singleton]
        intro hmem
        simp at hmem
        rcases hmem with h | h
        · rcases mem_flowLine h with h' | h' | h' <;> simp at h'
        · rcases mem_stableLine h with h' | h' | h' <;> simp at h'
  · intro hc1 hc2 hc3
    have hline : combinedLine netf sn = [] := by
      rw [combinedLine_some hqn hqs, if_neg hc1, if_neg hc2, if_neg hc3]
    refine ⟨?_, ?_, ?_⟩ <;>
      · simp only [hline, List.mem_append, List.mem_singleton]
        intro hmem
        simp at hmem
        rcases hmem with h | h
        · rcases mem_flowLine h with h' | h' | h' <;> simp at h'
        · rcases mem_stableLine h with h' | h' | h' <;> simp at h'

/-- Witness for C5: the spec's four combined-heuristic probes — flows
−60M with stable −10M, −60M with +10M, +60M with +10M, and the
unclassified +10 with −10. -/
theorem combined_heuristic_cases_witness :
    (∃ ls, insight_cmd ⟨Json.obj [],
        Json.obj [(netFlowKey, Json.num (-60000000))],
        Json.obj [(stableNetKey, Json.num (-10000000))], Json.arr []⟩
          = some ls
      ∧ InsightLine.combinedStrongAccumulation ∈ ls)
    ∧ (∃ ls, insight_cmd ⟨Json.obj [],
        Json.obj [(netFlowKey, Json.num (-60000000))],
        Json.obj [(stableNetKey, Json.num 10000000)], Json.arr []⟩
          = some ls
      ∧ InsightLine.combinedDivergence ∈ ls)
    ∧ (∃ ls, insight_cmd ⟨Json.obj [],
        Json.obj [(netFlowKey, Json.num 60000000)],
        Json.obj [(stableNetKey, Json.num 10000000)], Json.arr []⟩
          = some ls
      ∧ InsightLine.combinedBearish ∈ ls)
    ∧ (∃ ls, insight_cmd ⟨Json.obj [],
        Json.obj [(netFlowKey, Json.num 10)],
        Json.obj [(stableNetKey, Json.num (-10))], Json.arr []⟩
          = some ls
      ∧ ¬ InsightLine.combinedStrongAccumulation ∈ ls
      ∧ ¬ InsightLine.combinedDivergence ∈ ls
      ∧ ¬ InsightLine.combinedBearish ∈ ls) := by
  refine ⟨?_, ?_, ?_, ?_⟩
  · obtain ⟨ls, hls, hbkt, _, _, _⟩ := combined_heuristic_cases
      ⟨Json.obj [], Json.obj [(netFlowKey, Json.num (-60000000))],
        Json.obj [(stableNetKey, Json.num (-10000000))], Json.arr []⟩
      (Json.num (-60000000)) (Json.num (-10000000)) (-60000000) (-10000000)
      rfl rfl rfl rfl rfl rfl rfl
    exact ⟨ls, hls, (hbkt (by norm_num) (by norm_num)).1⟩
  · obtain ⟨ls, hls, _, hbkt, _, _⟩ := combined_heuristic_cases
      ⟨Json.obj [], Json.obj [(netFlowKey, Json.num (-60000000))],
        Json.obj [(stableNetKey, Json.num 10000000)], Json.arr []⟩
      (Json.num (-60000000)) (Json.num 10000000) (-60000000) 10000000
      rfl rfl rfl rfl rfl rfl rfl
    exact ⟨ls, hls, (hbkt (by norm_num) (by norm_num)).1⟩
  · obtain ⟨ls, hls, _, _, hbkt, _⟩ := combined_heuristic_cases
      ⟨Json.obj [], Json.obj [(netFlowKey, Json.num 60000000)],
        Json.obj [(stableNetKey, Json.num 10000000)], Json.arr []⟩
      (Json.num 60000000) (Json.num 10000000) 60000000 10000000
      rfl rfl rfl rfl rfl rfl rfl
    exact ⟨ls, hls, (hbkt (by norm_num) (by norm_num)).1⟩
  · obtain ⟨ls, hls, _, _, _, hbkt⟩ := combined_heuristic_cases
      ⟨Json.obj [], Json.obj [(netFlowKey, Json.num 10)],
        Json.obj [(stableNetKey, Json.num (-10))], Json.arr []⟩
      (Json.num 10) (Json.num (-10)) 10 (-10)
      rfl rfl rfl rfl rfl rfl rfl
    exact ⟨ls, hls, hbkt (by norm_num) (by norm_num) (by norm_num)⟩

theorem mem_flowAlerts_shape {x : Alert} {netfJ : Json}
    (h : x ∈ flowAlerts netfJ) :
    ∃ y, x = Alert.strongAccumulation y ∨ x = Alert.strongDistribution y := by
  unfold flowAlerts at h
  rcases hn : asNum netfJ with _ | q <;> simp only [hn] at h
  · simp at h
  · rcases List.mem_append.mp h with hL | hR
    · by_cases h1 : q ≤ ACCUM_THRESHOLD
      · rw [if_pos h1] at hL
        exact ⟨q, Or.inl (by simpa using hL)⟩
      · rw [if_neg h1] at hL
        simp at hL
    · by_cases h2 : DIST_THRESHOLD ≤ q
      · rw [if_pos h2] at hR
        exact ⟨q, Or.inr (by simpa using hR)⟩
      · rw [if_neg h2] at hR
        simp at hR

theorem bigAlerts_eq_nil : ∀ {ts : List Json},
    (∀ t ∈ ts, qualifyingAmount t = none) → bigAlerts ts = []
  | [], _ => rfl
  | t :: ts, h => by
    have ht := h t (List.mem_cons_self t ts)
    have ih := bigAlerts_eq_nil (fun u hu => h u (List.mem_cons_of_mem t hu))
    simp [bigAlerts, List.filterMap_cons, ht]
    simpa [bigAlerts] using ih

/-- Claim C6: the three alert thresholds are closed boundaries: with a
numeric net exchange flow `q`, the accumulation alert fires iff
q ≤ −50,000,000, the distribution alert fires iff q ≥ 50,000,000, and a
big-transfer alert fires for a transfer iff its numeric amount is
≥ 10,000,000. -/
theorem alert_thresholds_closed (flows whales : Json) (ts : List Json)
    (netfJ : Json) (q : ℚ)
    (hn : pyGet flows netFlowKey (Json.num 0) = some netfJ)
    (hq : asNum netfJ = some q)
    (hw : pyIter whales = some ts)
    (hts : ∀ t ∈ ts, t.isObj = true) :
    ∃ as, evaluate_alerts flows whales = some as
      ∧ (Alert.strongAccumulation q ∈ as ↔ q ≤ -50000000)
      ∧ (Alert.strongDistribution q ∈ as ↔ 50000000 ≤ q)
      ∧ (∀ t ∈ ts, ∀ amtJ a, pyGet t amountKey (Json.num 0) = some amtJ →
          asNum amtJ = some a →
          ((∃ tok src dst, Alert.whaleTransfer a tok src dst ∈ as)
            ↔ 10000000 ≤ a)) := by
  refine ⟨_, evaluate_alerts_eq hn hw hts, ?_, ?_, ?_⟩
  · constructor
    · intro hmem
      rcases List.mem_append.mp hmem with hL | hR
      · exact (mem_flowAlerts_accum.mp hL).2
      · exfalso
        obtain ⟨t, _, a, _, heq⟩ := mem_bigAlerts hR
        simp [mkWhaleAlert] at heq
    · intro hle
      exact List.mem_append.mpr (Or.inl (mem_flowAlerts_accum.mpr ⟨hq, hle⟩))
  · constructor
    · intro hmem
      rcases List.mem_append.mp hmem with hL | hR
      · exact (mem_flowAlerts_dist.mp hL).2
      · exfalso
        obtain ⟨t, _, a, _, heq⟩ := mem_bigAlerts hR
        simp [mkWhaleAlert] at heq
    · intro hge
      exact List.mem_append.mpr (Or.inl (mem_flowAlerts_dist.mpr ⟨hq, hge⟩))
  · intro t ht amtJ a hamt hasnum
    constructor
    · rintro ⟨tok, src, dst, hmem⟩
      rcases List.mem_append.mp hmem with hL | hR
      · obtain ⟨y, hy⟩ := mem_flowAlerts_shape hL
        rcases hy with h | h <;> simp at h
      · obtain ⟨t', _, a', hqual, heq⟩ := mem_bigAlerts hR
        simp only [mkWhaleAlert, Alert.whaleTransfer.injEq] at heq
        exact heq.1 ▸ qualifyingAmount_ge hqual
    · intro hge
      have hqual : qualifyingAmount t = some a := by
        unfold qualifyingAmount
        rw [objGetD_eq hamt]
        simp only [hasnum]
        rw [if_pos (show a ≥ BIG_TX_THRESHOLD from hge)]
      exact ⟨_, _, _, List.mem_append.mpr
        (Or.inr (mkWhaleAlert_mem_bigAlerts ht hqual))⟩

/-- Witness for C6: the boundary probes — net flow exactly −50,000,000
fires the accumulation alert, −49,999,999 fires no flow alert, a transfer
of exactly 10,000,000 fires, and 9,999,999 does not. -/
theorem alert_thresholds_closed_witness :
    (∃ as, evaluate_alerts (Json.obj [(netFlowKey, Json.num (-50000000))])
        (Json.arr []) = some as ∧ Alert.strongAccumulation (-50000000) ∈ as)
    ∧ (∃ as, evaluate_alerts (Json.obj [(netFlowKey, Json.num (-49999999))])
        (Json.arr []) = some as
      ∧ ¬ Alert.strongAccumulation (-49999999) ∈ as
      ∧ ¬ Alert.strongDistribution (-49999999) ∈ as)
    ∧ (∃ as, evaluate_alerts (Json.obj [(netFlowKey, Json.num 0)])
        (Json.arr [Json.obj [(amountKey, Json.num 10000000)]]) = some as
      ∧ (∃ tok src dst, Alert.whaleTransfer 10000000 tok src dst ∈ as))
    ∧ (∃ as, evaluate_alerts (Json.obj [(netFlowKey, Json.num 0)])
        (Json.arr [Json.obj [(amountKey, Json.num 9999999)]]) = some as
      ∧ ¬ (∃ tok src dst, Alert.whaleTransfer 9999999 tok src dst ∈ as)) := by
  refine ⟨?_, ?_, ?_, ?_⟩
  · obtain ⟨as, hev, hacc, _, _⟩ := alert_thresholds_closed
      (Json.obj [(netFlowKey, Json.num (-50000000))]) (Json.arr []) []
      (Json.num (-50000000)) (-50000000) rfl rfl rfl (by simp)
    exact ⟨as, hev, hacc.mpr (by norm_num)⟩
  · obtain ⟨as, hev, hacc, hdist, _⟩ := alert_thresholds_closed
      (Json.obj [(netFlowKey, Json.num (-49999999))]) (Json.arr []) []
      (Json.num (-49999999)) (-49999999) rfl rfl rfl (by simp)
    refine ⟨as, hev, ?_, ?_⟩
    · intro hmem
      have := hacc.mp hmem
      norm_num at this
    · intro hmem
      have := hdist.mp hmem
      norm_num at this
  · obtain ⟨as, hev, _, _, hwt⟩ := alert_thresholds_closed
      (Json.obj [(netFlowKey, Json.num 0)])
      (Json.arr [Json.obj [(amountKey, Json.num 10000000)]])
      [Json.obj [(amountKey, Json.num 10000000)]]
      (Json.num 0) 0 rfl rfl rfl (by simp [Json.isObj])
    refine ⟨as, hev, ?_⟩
    exact (hwt (Json.obj [(amountKey, Json.num 10000000)])
      (List.mem_singleton.mpr rfl) (Json.num 10000000) 10000000 rfl
        rfl).mpr (by norm_num)
  · obtain ⟨as, hev, _, _, hwt⟩ := alert_thresholds_closed
      (Json.obj [(netFlowKey, Json.num 0)])
      (Json.arr [Json.obj [(amountKey, Json.num 9999999)]])
      [Json.obj [(amountKey, Json.num 9999999)]]
      (Json.num 0) 0 rfl rfl rfl (by simp [Json.isObj])
    refine ⟨as, hev, ?_⟩
    intro hex
    have := (hwt (Json.obj [(amountKey, Json.num 9999999)])
      (List.mem_singleton.mpr rfl) (Json.num 9999999) 9999999 rfl
        rfl).mp hex
    norm_num at this

/-- Claim C7: the alert list decomposes as the flow alerts (at most one:
accumulation and distribution are mutually exclusive) followed by exactly
one big-transfer alert per qualifying transfer in original sequence order,
uncapped (`List.filterMap` of the whole transfer list); and it is empty
when no threshold condition is met. -/
theorem alert_list_shape (flows whales : Json) (ts : List Json)
    (netfJ : Json)
    (hn : pyGet flows netFlowKey (Json.num 0) = some netfJ)
    (hw : pyIter whales = some ts)
    (hts : ∀ t ∈ ts, t.isObj = true) :
    ∃ as, evaluate_alerts flows whales = some as
      ∧ as = flowAlerts netfJ ++ bigAlerts ts
      ∧ (flowAlerts netfJ).length ≤ 1
      ∧ (∀ x y, ¬(Alert.strongAccumulation x ∈ as
          ∧ Alert.strongDistribution y ∈ as))
      ∧ bigAlerts ts
          = ts.filterMap (fun t => (qualifyingAmount t).map (mkWhaleAlert t))
      ∧ ((∀ x, asNum netfJ = some x → -50000000 < x ∧ x < 50000000) →
          (∀ t ∈ ts, qualifyingAmount t = none) → as = []) := by
  refine ⟨_, evaluate_alerts_eq hn hw hts, rfl, ?_, ?_, rfl, ?_⟩
  · unfold flowAlerts
    rcases hx : asNum netfJ with _ | q <;> simp only [hx]
    · simp
    · by_cases h1 : q ≤ ACCUM_THRESHOLD <;> by_cases h2 : DIST_THRESHOLD ≤ q
      · exfalso
        have hlt : ACCUM_THRESHOLD < DIST_THRESHOLD := by
          norm_num [ACCUM_THRESHOLD, DIST_THRESHOLD]
        linarith
      · simp [h1, h2]
      · simp [h1, h2]
      · simp [h1, h2]
  · rintro x y ⟨hxm, hym⟩
    have hx' : asNum netfJ = some x ∧ x ≤ ACCUM_THRESHOLD := by
      rcases List.mem_append.mp hxm with hL | hR
      · exact mem_flowAlerts_accum.mp hL
      · exfalso
        obtain ⟨t, _, a, _, heq⟩ := mem_bigAlerts hR
        simp [mkWhaleAlert] at heq
    have hy' : asNum netfJ = some y ∧ y ≥ DIST_THRESHOLD := by
      rcases List.mem_append.mp hym with hL | hR
      · exact mem_flowAlerts_dist.mp hL
      · exfalso
        obtain ⟨t, _, a, _, heq⟩ := mem_bigAlerts hR
        simp [mkWhaleAlert] at heq
    have hxy : x = y := by
      have := hx'.1.symm.trans hy'.1
      exact Option.some.inj this
    have h1 := hx'.2
    have h2 := hy'.2
    rw [hxy] at h1
    have hlt : ACCUM_THRESHOLD < DIST_THRESHOLD := by
      norm_num [ACCUM_THRESHOLD, DIST_THRESHOLD]
    linarith
  · intro hflow hqual
    have h1 : flowAlerts netfJ = [] := by
      unfold flowAlerts
      rcases hx : asNum netfJ with _ | q <;> simp only [hx]
      obtain ⟨hlo, hhi⟩ := hflow q hx
      have hc1 : ¬ q ≤ ACCUM_THRESHOLD := by
        simp only [ACCUM_THRESHOLD]
        linarith
      have hc2 : ¬ DIST_THRESHOLD ≤ q := by
        simp only [DIST_THRESHOLD]
        linarith
      rw [if_neg hc1, if_neg hc2]
      rfl
    rw [h1, bigAlerts_eq_nil hqual]
    rfl

/-- Witness for C7: with net flow 0 and no transfers, no condition is met
and the alert list is empty. -/
theorem alert_list_shape_witness :
    ∃ as, evaluate_alerts (Json.obj [(netFlowKey, Json.num 0)])
        (Json.arr []) = some as ∧ as = [] := by
  obtain ⟨as, hev, _, _, _, _, hempty⟩ := alert_list_shape
    (Json.obj [(netFlowKey, Json.num 0)]) (Json.arr []) [] (Json.num 0)
    rfl rfl (by simp)
  refine ⟨as, hev, hempty ?_ (by simp)⟩
  intro x hx
  injection hx with hx'
  subst hx'
  norm_num

end WhaleWatch
